import Mathlib

/-!
Verification of the Readit Report sentiment-analysis app (src/app.py).

The app fetches Reddit comments, classifies each with a pretrained
sentiment pipeline, applies a sarcasm post-processing rule, aggregates
counts, and filters comments for display.  The external collaborators
(Reddit client, HuggingFace pipeline, Streamlit) are modelled as
function parameters; the original logic (marker detection, label
inversion, aggregation, filtering, session-state transitions) is
embedded faithfully from the source.
-/

/-- Python whitespace characters stripped by `str.strip()` (the ASCII core set). -/
def pyIsSpace (c : Char) : Bool :=
  c == ' ' || c == '\t' || c == '\n' || c == '\r' || c == '\x0b' || c == '\x0c'

/-- Embedding of Python `str.strip()`: drop whitespace from both ends. -/
def pyStrip (s : String) : String :=
  ⟨((s.data.dropWhile pyIsSpace).reverse.dropWhile pyIsSpace).reverse⟩

/-- Embedding of Python `str.lower()` (ASCII case mapping, as used on the marker check). -/
def pyLower (s : String) : String :=
  ⟨s.data.map Char.toLower⟩

/-- Embedding of Python `str.endswith(suffix)`. -/
def pyEndsWith (s suffix : String) : Bool :=
  suffix.data.isSuffixOf s.data

/-- Embedding of Python slicing `s[:-2]`: drop the last two characters (empty if shorter). -/
def pyDropLast2 (s : String) : String :=
  ⟨s.data.dropLast.dropLast⟩

/-- Embedding of Python `str.capitalize()`: first character upper-cased, rest lower-cased. -/
def pyCapitalize (s : String) : String :=
  match s.data with
  | [] => ""
  | c :: cs => ⟨Char.toUpper c :: cs.map Char.toLower⟩

/-- Condition of src/app.py line 86: `comment_body.lower().endswith("/s")`. -/
def isSarcastic (comment_body : String) : Bool :=
  pyEndsWith (pyLower comment_body) "/s"

/-- Inversion table of src/app.py lines 93-98: Positive to Negative, Negative to
Positive, and everything else (the `else: # Neutral` branch) to Negative. -/
def invertSentiment (original_sentiment : String) : String :=
  if original_sentiment = "Positive" then "Negative"
  else if original_sentiment = "Negative" then "Positive"
  else "Negative"

/-- An analyzed comment record as appended at src/app.py lines 108-113. -/
structure AnalyzedComment where
  text : String
  sentiment_category : String
  display_label : String
  parent_text : String
deriving DecidableEq

/-- Summary counts dictionary of src/app.py lines 118-124. -/
structure SummaryCounts where
  total_comments : Nat
  positive : Nat
  negative : Nat
  neutral : Nat
  sarcastic : Nat
deriving DecidableEq

/-- Return value of a successful `analyze_comments` run (src/app.py lines 117-126). -/
structure AnalysisResult where
  counts : SummaryCounts
  comments : List AnalyzedComment
deriving DecidableEq

/-- Parent of a Reddit comment as resolved at src/app.py lines 63-69: another
comment (use its body), the submission (use its title), or unavailable. -/
inductive Parent where
  | comment (body : String)
  | submission (title : String)
  | other
deriving DecidableEq

/-- Parent text resolution of src/app.py lines 63-69. -/
def parentTextOf : Parent → String
  | Parent.comment b => b
  | Parent.submission t => t
  | Parent.other => ""

/-- A raw comment as delivered by the Reddit client (body not yet stripped). -/
structure RawComment where
  body : String
  parent : Parent
deriving DecidableEq

/-- A Reddit submission: its flattened comment list (after `replace_more`). -/
structure Submission where
  comments : List RawComment
deriving DecidableEq

/-- Body of the per-comment loop at src/app.py lines 83-113: `batchLabel` is the
label of the batched pipeline result `results[i]` for this comment; `pipe`
models the sentiment pipeline as text to label (scores are unused downstream). -/
def processComment (pipe : String → String) (batchLabel comment_body parent_text : String) :
    AnalyzedComment :=
  if isSarcastic comment_body then
    let clean_text := pyStrip (pyDropLast2 comment_body)
    let original_sentiment := pyCapitalize (pipe clean_text)
    let reversed_sentiment := invertSentiment original_sentiment
    { text := clean_text
      sentiment_category := "Sarcastic"
      display_label := "Sarcastic (Reversed to " ++ reversed_sentiment ++ ")"
      parent_text := parent_text }
  else
    { text := comment_body
      sentiment_category := pyCapitalize batchLabel
      display_label := pyCapitalize batchLabel
      parent_text := parent_text }

/-- Aggregation of src/app.py lines 115-124: sentiment list and the counts dict. -/
def summarize (analyzed_comments : List AnalyzedComment) : SummaryCounts :=
  let sentiments := analyzed_comments.map fun c => c.sentiment_category
  { total_comments := analyzed_comments.length
    positive := sentiments.count "Positive"
    negative := sentiments.count "Negative"
    neutral := sentiments.count "Neutral"
    sarcastic := sentiments.count "Sarcastic" }

/-- Comment extraction loop of src/app.py lines 58-75: for each selected
submission, each comment's stripped body paired with its resolved parent text. -/
def extractComments (subs : List Submission) : List (String × String) :=
  (subs.map fun sub => sub.comments.map fun c => (pyStrip c.body, parentTextOf c.parent)).flatten

/-- Embedding of `analyze_comments` (src/app.py lines 52-126).  `fetch` models
`reddit.submission(id=...)` plus comment retrieval; `pipe` models the sentiment
pipeline, so the batched call `results = sentiment_pipeline(texts)` is the
elementwise application and `results[i]` is `pipe` at the i-th body. -/
def analyze_comments (pipe : String → String) (fetch : String → Submission)
    (post_ids : List String) : Option AnalysisResult :=
  let structured_comments := extractComments (post_ids.map fetch)
  if structured_comments.isEmpty then
    none
  else
    let analyzed_comments := structured_comments.map fun cd =>
      processComment pipe (pipe cd.1) cd.1 cd.2
    some { counts := summarize analyzed_comments, comments := analyzed_comments }

/-- Filtering logic of src/app.py lines 199-202. -/
def comments_to_display (filter_choice : String) (all_comments : List AnalyzedComment) :
    List AnalyzedComment :=
  if filter_choice = "All" then all_comments
  else all_comments.filter fun c => c.sentiment_category == filter_choice

/-- A post record as built by `search_posts` (src/app.py lines 41-49). -/
structure Post where
  id : String
  title : String
  subreddit : String
  num_comments : Nat
  url : String
deriving DecidableEq

/-- Streamlit session state as used by the app: `posts` and `analysis_results`
are present or absent keys (absent = `none`; `analysis_results`, when present,
holds the possibly-`None` return of `analyze_comments`), and the per-post
checkbox widget states keyed by post id. -/
structure SessionState where
  posts : Option (List Post)
  analysis_results : Option (Option AnalysisResult)
  checkboxes : List (String × Bool)
deriving DecidableEq

/-- Checkbox read `st.session_state.get(f"cb_{post['id']}", False)` (src/app.py line 152). -/
def getCheckbox (cbs : List (String × Bool)) (pid : String) : Bool :=
  match cbs.lookup pid with
  | some b => b
  | none => false

/-- Selected post ids built by the loop at src/app.py lines 151-153. -/
def selected_posts (posts : List Post) (cbs : List (String × Bool)) : List String :=
  (posts.filter fun post => getCheckbox cbs post.id).map fun post => post.id

/-- Search button handler (src/app.py lines 136-139): store the new posts, then
delete `analysis_results` from the session state if present. -/
def searchHandler (newPosts : List Post) (s : SessionState) : SessionState :=
  let s1 : SessionState := { s with posts := some newPosts }
  match s1.analysis_results with
  | some _ => { s1 with analysis_results := none }
  | none => s1

/-- Outcome of the analyze button handler: the resulting session state, whether
the warning was shown, and whether the analysis pipeline was invoked. -/
structure AnalyzeOutcome where
  state : SessionState
  warned : Bool
  pipelineRan : Bool
deriving DecidableEq

/-- Analyze button handler (src/app.py lines 150-158): collect checked posts; if
any, run `analyze_comments` and store its result; otherwise warn and do nothing. -/
def analyzeHandler (pipe : String → String) (fetch : String → Submission)
    (s : SessionState) : AnalyzeOutcome :=
  let posts := s.posts.getD []
  let selected := selected_posts posts s.checkboxes
  if selected.isEmpty then
    { state := s, warned := true, pipelineRan := false }
  else
    { state := { s with analysis_results := some (analyze_comments pipe fetch selected) }
      warned := false
      pipelineRan := true }

/-- Concrete pipeline for witnesses: "negative" on one fixed text, else "positive". -/
def wPipe : String → String :=
  fun t => if t = "bad movie" then "negative" else "positive"

/-- Concrete pipeline for witnesses covering all three base labels. -/
def wPipe3 : String → String :=
  fun t => if t = "good" then "positive" else if t = "bad" then "negative" else "neutral"

/-- Concrete fetch for witnesses: one submission with three comments. -/
def wFetch : String → Submission :=
  fun _ =>
    { comments :=
        [ { body := " Great stuff ", parent := Parent.submission "Title" }
        , { body := "bad movie", parent := Parent.other }
        , { body := "love it /s", parent := Parent.comment "a parent comment" } ] }

/-- Expected result of `analyze_comments wPipe wFetch` on one post id. -/
def wResult : AnalysisResult :=
  { counts := { total_comments := 3, positive := 1, negative := 1, neutral := 0, sarcastic := 1 }
    comments :=
      [ { text := "Great stuff", sentiment_category := "Positive"
          display_label := "Positive", parent_text := "Title" }
      , { text := "bad movie", sentiment_category := "Negative"
          display_label := "Negative", parent_text := "" }
      , { text := "love it", sentiment_category := "Sarcastic"
          display_label := "Sarcastic (Reversed to Negative)"
          parent_text := "a parent comment" } ] }

/-- Every sentiment category produced by the loop body is either the sarcasm
override or the capitalized batched label. -/
lemma processComment_category (pipe : String → String) (batchLabel comment_body parent_text : String) :
    (processComment pipe batchLabel comment_body parent_text).sentiment_category = "Sarcastic" ∨
    (processComment pipe batchLabel comment_body parent_text).sentiment_category =
      pyCapitalize batchLabel := by
  unfold processComment
  split
  · exact Or.inl rfl
  · exact Or.inr rfl

/-- Counting each of the four category strings covers a list all of whose
elements are among those four values. -/
lemma count_four_eq_length (l : List String)
    (h : ∀ x ∈ l, x = "Positive" ∨ x = "Negative" ∨ x = "Neutral" ∨ x = "Sarcastic") :
    l.count "Positive" + l.count "Negative" + l.count "Neutral" + l.count "Sarcastic" =
      l.length := by
  induction l with
  | nil => rfl
  | cons a t ih =>
    have ha := h a (List.mem_cons_self a t)
    have ht := ih fun x hx => h x (List.mem_cons_of_mem a hx)
    rcases ha with rfl | rfl | rfl | rfl <;>
      simp only [List.count_cons, List.length_cons] <;>
      simp <;> omega

/-- C3: the sarcasm inversion is the fixed table Positive to Negative, Negative
to Positive, Neutral to Negative (not to itself), and every sarcastic comment's
display label is built from that table applied to the re-classified clean text,
regardless of the input text. -/
theorem sarcasm_inversion_fixed_table (pipe : String → String)
    (batchLabel comment_body parent_text : String)
    (h : isSarcastic comment_body = true) :
    invertSentiment "Positive" = "Negative" ∧
    invertSentiment "Negative" = "Positive" ∧
    invertSentiment "Neutral" = "Negative" ∧
    invertSentiment "Neutral" ≠ "Neutral" ∧
    (processComment pipe batchLabel comment_body parent_text).display_label =
      "Sarcastic (Reversed to " ++
        invertSentiment (pyCapitalize (pipe (pyStrip (pyDropLast2 comment_body)))) ++ ")" := by
  refine ⟨by decide, by decide, by decide, by decide, ?_⟩
  simp [processComment, h]

/-- C3 witness: three sarcastic literals whose cleaned texts classify as each of
the three base labels; the reversed labels are Negative, Positive, Negative. -/
theorem sarcasm_inversion_fixed_table_witness :
    isSarcastic "good /s" = true ∧
    (processComment wPipe3 "x" "good /s" "").display_label =
      "Sarcastic (Reversed to Negative)" ∧
    (processComment wPipe3 "x" "bad /s" "").display_label =
      "Sarcastic (Reversed to Positive)" ∧
    (processComment wPipe3 "x" "meh /s" "").display_label =
      "Sarcastic (Reversed to Negative)" ∧
    (processComment wPipe3 "x" "good /s" "").display_label =
      "Sarcastic (Reversed to " ++
        invertSentiment (pyCapitalize (wPipe3 (pyStrip (pyDropLast2 "good /s")))) ++ ")" :=
  ⟨by decide, by decide, by decide, by decide,
    (sarcasm_inversion_fixed_table wPipe3 "x" "good /s" "" (by decide)).2.2.2.2⟩

/-- C5: for a sarcastic comment the batched classification result is discarded
(the output does not depend on it), and the record is built from a fresh
single-item classification of the cleaned display text: category "Sarcastic",
display label "Sarcastic (Reversed to {inverted})". -/
theorem sarcastic_batched_result_discarded (pipe : String → String)
    (b1 b2 comment_body parent_text : String)
    (h : isSarcastic comment_body = true) :
    processComment pipe b1 comment_body parent_text =
      processComment pipe b2 comment_body parent_text ∧
    processComment pipe b1 comment_body parent_text =
      { text := pyStrip (pyDropLast2 comment_body)
        sentiment_category := "Sarcastic"
        display_label := "Sarcastic (Reversed to " ++
          invertSentiment (pyCapitalize (pipe (pyStrip (pyDropLast2 comment_body)))) ++ ")"
        parent_text := parent_text } := by
  constructor <;> simp [processComment, h]

/-- C5 witness: a concrete sarcastic comment with two different batched labels
produces the same record, built from the re-classification of the clean text. -/
theorem sarcastic_batched_result_discarded_witness :
    isSarcastic "love it /s" = true ∧
    (processComment wPipe "negative" "love it /s" "p" =
        processComment wPipe "neutral" "love it /s" "p" ∧
      processComment wPipe "negative" "love it /s" "p" =
        { text := pyStrip (pyDropLast2 "love it /s")
          sentiment_category := "Sarcastic"
          display_label := "Sarcastic (Reversed to " ++
            invertSentiment (pyCapitalize (wPipe (pyStrip (pyDropLast2 "love it /s")))) ++ ")"
          parent_text := "p" }) :=
  ⟨by decide, sarcastic_batched_result_discarded wPipe "negative" "neutral" "love it /s" "p"
    (by decide)⟩

/-- C7: after the search button handler runs, no analysis results remain in the
session state, whatever the prior state was, and the new posts are stored. -/
theorem research_clears_results (newPosts : List Post) (s : SessionState) :
    (searchHandler newPosts s).analysis_results = none ∧
    (searchHandler newPosts s).posts = some newPosts := by
  unfold searchHandler
  cases h : s.analysis_results <;> simp [h]

/-- C8: when no post is checked, the analyze button handler warns, does not run
the pipeline, and leaves the session state unchanged. -/
theorem no_selection_no_pipeline (pipe : String → String) (fetch : String → Submission)
    (s : SessionState)
    (h : selected_posts (s.posts.getD []) s.checkboxes = []) :
    analyzeHandler pipe fetch s =
      { state := s, warned := true, pipelineRan := false } := by
  unfold analyzeHandler
  simp [h]

/-- C8 witness: a state with loaded posts, prior results, and no checked boxes
is left unchanged with a warning and no pipeline run. -/
theorem no_selection_no_pipeline_witness :
    selected_posts ((SessionState.mk
        (some [{ id := "p1", title := "T", subreddit := "technology", num_comments := 3,
                 url := "u" }])
        (some (some wResult)) [("p1", false)]).posts.getD [])
        (SessionState.mk
        (some [{ id := "p1", title := "T", subreddit := "technology", num_comments := 3,
                 url := "u" }])
        (some (some wResult)) [("p1", false)]).checkboxes = [] ∧
    analyzeHandler wPipe wFetch
        (SessionState.mk
        (some [{ id := "p1", title := "T", subreddit := "technology", num_comments := 3,
                 url := "u" }])
        (some (some wResult)) [("p1", false)]) =
      { state := SessionState.mk
          (some [{ id := "p1", title := "T", subreddit := "technology", num_comments := 3,
                   url := "u" }])
          (some (some wResult)) [("p1", false)]
        warned := true
        pipelineRan := false } :=
  ⟨by decide, no_selection_no_pipeline wPipe wFetch _ (by decide)⟩

/-- C10: a comment consisting of the bare marker is still processed: it is
detected as sarcastic, its display text is the empty string, the second
classification call is made on that empty string, and the pipeline run that
contains it still returns a result. -/
theorem marker_only_comment_processed (pipe : String → String) (batchLabel parent_text : String) :
    isSarcastic "/s" = true ∧
    (processComment pipe batchLabel "/s" parent_text).sentiment_category = "Sarcastic" ∧
    (processComment pipe batchLabel "/s" parent_text).text = "" ∧
    (processComment pipe batchLabel "/s" parent_text).display_label =
      "Sarcastic (Reversed to " ++ invertSentiment (pyCapitalize (pipe "")) ++ ")" ∧
    (analyze_comments pipe
        (fun _ => { comments := [{ body := " /s ", parent := Parent.other }] })
        ["p"]).isSome = true := by
  have hclean : pyStrip (pyDropLast2 "/s") = "" := by decide
  have hs : isSarcastic "/s" = true := by decide
  refine ⟨hs, ?_, ?_, ?_, rfl⟩ <;> simp [processComment, hs, hclean]

/-- The length of the filtered-by-category list equals the count of that
category among the mapped sentiment strings. -/
lemma count_map_length_filter (l : List AnalyzedComment) (C : String) :
    (l.filter fun c => c.sentiment_category == C).length =
      (l.map fun c => c.sentiment_category).count C := by
  induction l with
  | nil => rfl
  | cons a t ih =>
    by_cases h : a.sentiment_category = C <;>
      simp [List.filter_cons, List.count_cons, h, ih]

/-- C1: whenever the pipeline's capitalized labels are among the three base
sentiments, every analyzed comment's category is one of the four documented
values and the four summary counts sum exactly to the total, which is the
length of the analyzed-comment list. -/
theorem analysis_result_invariants (pipe : String → String) (fetch : String → Submission)
    (post_ids : List String) (r : AnalysisResult)
    (hpipe : ∀ t, pyCapitalize (pipe t) = "Positive" ∨ pyCapitalize (pipe t) = "Negative" ∨
      pyCapitalize (pipe t) = "Neutral")
    (hr : analyze_comments pipe fetch post_ids = some r) :
    (∀ c ∈ r.comments,
      c.sentiment_category = "Positive" ∨ c.sentiment_category = "Negative" ∨
      c.sentiment_category = "Neutral" ∨ c.sentiment_category = "Sarcastic") ∧
    r.counts.positive + r.counts.negative + r.counts.neutral + r.counts.sarcastic =
      r.counts.total_comments ∧
    r.counts.total_comments = r.comments.length := by
  simp only [analyze_comments] at hr
  split at hr
  · exact absurd hr (by simp)
  · rw [Option.some_inj] at hr
    subst hr
    have hmemc : ∀ c ∈ (extractComments (post_ids.map fetch)).map fun cd =>
        processComment pipe (pipe cd.1) cd.1 cd.2,
        c.sentiment_category = "Positive" ∨ c.sentiment_category = "Negative" ∨
        c.sentiment_category = "Neutral" ∨ c.sentiment_category = "Sarcastic" := by
      intro c hc
      rw [List.mem_map] at hc
      obtain ⟨cd, _, rfl⟩ := hc
      rcases processComment_category pipe (pipe cd.1) cd.1 cd.2 with h | h
      · exact Or.inr (Or.inr (Or.inr h))
      · rw [h]
        rcases hpipe cd.1 with h1 | h1 | h1
        · exact Or.inl h1
        · exact Or.inr (Or.inl h1)
        · exact Or.inr (Or.inr (Or.inl h1))
    refine ⟨hmemc, ?_, ?_⟩
    · have hmems : ∀ x ∈ ((extractComments (post_ids.map fetch)).map fun cd =>
          processComment pipe (pipe cd.1) cd.1 cd.2).map fun c => c.sentiment_category,
          x = "Positive" ∨ x = "Negative" ∨ x = "Neutral" ∨ x = "Sarcastic" := by
        intro x hx
        rw [List.mem_map] at hx
        obtain ⟨c, hc, rfl⟩ := hx
        exact hmemc c hc
      have hcount := count_four_eq_length _ hmems
      simp only [summarize, List.length_map] at hcount ⊢
      omega
    · simp [summarize]

/-- C1 witness: a concrete run over one post with a positive, a negative and a
sarcastic comment satisfies the invariants. -/
theorem analysis_result_invariants_witness :
    (∀ t, pyCapitalize (wPipe t) = "Positive" ∨ pyCapitalize (wPipe t) = "Negative" ∨
      pyCapitalize (wPipe t) = "Neutral") ∧
    analyze_comments wPipe wFetch ["p1"] = some wResult ∧
    ((∀ c ∈ wResult.comments,
      c.sentiment_category = "Positive" ∨ c.sentiment_category = "Negative" ∨
      c.sentiment_category = "Neutral" ∨ c.sentiment_category = "Sarcastic") ∧
    wResult.counts.positive + wResult.counts.negative + wResult.counts.neutral +
      wResult.counts.sarcastic = wResult.counts.total_comments ∧
    wResult.counts.total_comments = wResult.comments.length) :=
  ⟨fun t => by
      by_cases h : t = "bad movie" <;> simp [wPipe, h] <;> decide,
    by decide,
    analysis_result_invariants wPipe wFetch ["p1"] wResult
      (fun t => by by_cases h : t = "bad movie" <;> simp [wPipe, h] <;> decide)
      (by decide)⟩

/-- C4: filtering with "All" is the identity; filtering with any other choice
keeps exactly the comments of that category, preserves order (sublist), and
its length is the category count, which for each of the four categories equals
the corresponding SummaryCounts field. -/
theorem comment_filter_correct (all_comments : List AnalyzedComment) (filter_choice : String) :
    comments_to_display "All" all_comments = all_comments ∧
    (filter_choice ≠ "All" →
      (∀ c ∈ comments_to_display filter_choice all_comments,
        c.sentiment_category = filter_choice) ∧
      List.Sublist (comments_to_display filter_choice all_comments) all_comments ∧
      (comments_to_display filter_choice all_comments).length =
        ((all_comments.map fun c => c.sentiment_category).count filter_choice)) ∧
    (comments_to_display "Positive" all_comments).length = (summarize all_comments).positive ∧
    (comments_to_display "Negative" all_comments).length = (summarize all_comments).negative ∧
    (comments_to_display "Neutral" all_comments).length = (summarize all_comments).neutral ∧
    (comments_to_display "Sarcastic" all_comments).length = (summarize all_comments).sarcastic := by
  refine ⟨by simp [comments_to_display], ?_, ?_, ?_, ?_, ?_⟩
  · intro h
    unfold comments_to_display
    rw [if_neg h]
    refine ⟨?_, List.filter_sublist all_comments, count_map_length_filter all_comments filter_choice⟩
    intro c hc
    have := (List.mem_filter.mp hc).2
    simpa using this
  all_goals
    simp [comments_to_display, summarize, count_map_length_filter]

/-- C4 witness: filtering the concrete analyzed list by "Sarcastic" is an
order-preserving sublist whose length is the sarcastic count. -/
theorem comment_filter_correct_witness :
    ("Sarcastic" : String) ≠ "All" ∧
    List.Sublist (comments_to_display "Sarcastic" wResult.comments) wResult.comments ∧
    (comments_to_display "Sarcastic" wResult.comments).length =
      ((wResult.comments.map fun c => c.sentiment_category).count "Sarcastic") :=
  ⟨by decide,
    ((comment_filter_correct wResult.comments "Sarcastic").2.1 (by decide)).2.1,
    ((comment_filter_correct wResult.comments "Sarcastic").2.1 (by decide)).2.2⟩

/-- C6: the analysis returns the explicit marker `none` exactly when the
selected posts yield zero extracted comments, and in particular a single post
with zero comments yields `none`, not an empty result structure. -/
theorem empty_result_marker (pipe : String → String) (fetch : String → Submission)
    (post_ids : List String) :
    (analyze_comments pipe fetch post_ids = none ↔
      ∀ pid ∈ post_ids, (fetch pid).comments = []) ∧
    analyze_comments pipe (fun _ => { comments := [] }) ["only"] = none := by
  refine ⟨?_, rfl⟩
  have hext : extractComments (post_ids.map fetch) = [] ↔
      ∀ pid ∈ post_ids, (fetch pid).comments = [] := by
    unfold extractComments
    rw [List.flatten_eq_nil_iff]
    constructor
    · intro h pid hpid
      have := h _ (List.mem_map_of_mem _ (List.mem_map_of_mem fetch hpid))
      simpa using this
    · intro h l hl
      rw [List.mem_map] at hl
      obtain ⟨sub, hsub, rfl⟩ := hl
      rw [List.mem_map] at hsub
      obtain ⟨pid, hpid, rfl⟩ := hsub
      simp [h pid hpid]
  simp only [analyze_comments]
  split
  · rename_i h
    rw [List.isEmpty_iff] at h
    simp only [true_iff]
    exact hext.mp h
  · rename_i h
    rw [List.isEmpty_iff] at h
    constructor
    · intro hc
      exact absurd hc (by simp)
    · intro hall
      exact absurd (hext.mpr hall) h

/-- The ASCII lower-casing used by the marker check maps a character to 's'
exactly when it is 's' or 'S'. -/
lemma toLower_eq_s_iff (c : Char) : Char.toLower c = 's' ↔ (c = 's' ∨ c = 'S') := by
  constructor
  · intro h
    simp only [Char.toLower] at h
    split at h
    · rename_i hr
      obtain ⟨h1, h2⟩ := hr
      right
      obtain ⟨n, hn⟩ : ∃ n, Char.toNat c = n := ⟨Char.toNat c, rfl⟩
      rw [hn] at h h1 h2
      have hc : Char.ofNat n = c := by rw [← hn]; exact Char.ofNat_toNat c
      interval_cases n <;>
        first
          | exact absurd h (by decide)
          | (rw [← hc]; try decide)
    · exact Or.inl h
  · intro h
    rcases h with rfl | rfl <;> decide

/-- The ASCII lower-casing maps a character to '/' exactly when it is '/'. -/
lemma toLower_eq_slash_iff (c : Char) : Char.toLower c = '/' ↔ c = '/' := by
  constructor
  · intro h
    simp only [Char.toLower] at h
    split at h
    · rename_i hr
      obtain ⟨h1, h2⟩ := hr
      obtain ⟨n, hn⟩ : ∃ n, Char.toNat c = n := ⟨Char.toNat c, rfl⟩
      rw [hn] at h h1 h2
      interval_cases n <;> exact absurd h (by decide)
    · exact h
  · intro h
    subst h
    decide

/-- A two-element suffix is a two-element reversed-order prefix of the reverse. -/
lemma pair_suffix_iff (a b : Char) (l : List Char) :
    [a, b] <:+ l ↔ [b, a] <+: l.reverse := by
  have h := @List.reverse_suffix Char [b, a] l.reverse
  simpa using h

/-- A two-element prefix means the list starts with exactly those two elements. -/
lemma prefix_pair_iff (x y : Char) (m : List Char) :
    [x, y] <+: m ↔ ∃ t, m = x :: y :: t := by
  cases m with
  | nil => simp
  | cons a m' =>
    cases m' with
    | nil =>
      simp [List.cons_prefix_cons]
    | cons b t =>
      simp only [List.cons_prefix_cons, List.cons.injEq]
      constructor
      · rintro ⟨rfl, rfl, -⟩
        exact ⟨t, rfl, rfl, rfl⟩
      · rintro ⟨t', rfl, rfl, rfl⟩
        exact ⟨rfl, rfl, List.nil_prefix⟩

/-- Suffix "/s" after lower-casing holds exactly when the original list ends in
"/s" or "/S". -/
lemma lower_suffix_iff (l : List Char) :
    (['/', 's'] <:+ l.map Char.toLower) ↔ (['/', 's'] <:+ l ∨ ['/', 'S'] <:+ l) := by
  rw [pair_suffix_iff, pair_suffix_iff, pair_suffix_iff]
  rw [← List.map_reverse]
  generalize l.reverse = r
  rw [prefix_pair_iff, prefix_pair_iff, prefix_pair_iff]
  constructor
  · rintro ⟨t, ht⟩
    cases r with
    | nil => simp at ht
    | cons a r' =>
      cases r' with
      | nil => simp at ht
      | cons b r'' =>
        simp only [List.map_cons, List.cons.injEq] at ht
        obtain ⟨ha, hb, -⟩ := ht
        have hb' := (toLower_eq_slash_iff b).mp hb
        subst hb'
        rcases (toLower_eq_s_iff a).mp ha with rfl | rfl
        · exact Or.inl ⟨r'', rfl⟩
        · exact Or.inr ⟨r'', rfl⟩
  · rintro (⟨t, rfl⟩ | ⟨t, rfl⟩) <;>
      exact ⟨t.map Char.toLower, by
        simp only [List.map_cons, List.cons.injEq]
        exact ⟨by decide, by decide, trivial⟩⟩

/-- C2: a comment is detected as sarcastic exactly when it ends with "/s" or
"/S" (case-insensitive marker), and then its category is Sarcastic and its
display text is the body with the last two characters removed and whitespace
stripped. -/
theorem sarcasm_marker_detection (pipe : String → String)
    (batchLabel comment_body parent_text : String) :
    (isSarcastic comment_body = true ↔
      (pyEndsWith comment_body "/s" = true ∨ pyEndsWith comment_body "/S" = true)) ∧
    (isSarcastic comment_body = true →
      (processComment pipe batchLabel comment_body parent_text).sentiment_category =
        "Sarcastic" ∧
      (processComment pipe batchLabel comment_body parent_text).text =
        pyStrip (pyDropLast2 comment_body)) := by
  constructor
  · have h1 : isSarcastic comment_body = true ↔
        ['/', 's'] <:+ comment_body.data.map Char.toLower := by
      rw [show isSarcastic comment_body =
        (['/', 's'].isSuffixOf (comment_body.data.map Char.toLower)) from rfl]
      exact List.isSuffixOf_iff_suffix
    have h2 : pyEndsWith comment_body "/s" = true ↔ ['/', 's'] <:+ comment_body.data := by
      rw [show pyEndsWith comment_body "/s" =
        (['/', 's'].isSuffixOf comment_body.data) from rfl]
      exact List.isSuffixOf_iff_suffix
    have h3 : pyEndsWith comment_body "/S" = true ↔ ['/', 'S'] <:+ comment_body.data := by
      rw [show pyEndsWith comment_body "/S" =
        (['/', 'S'].isSuffixOf comment_body.data) from rfl]
      exact List.isSuffixOf_iff_suffix
    rw [h1, h2, h3]
    exact lower_suffix_iff comment_body.data
  · intro h
    constructor <;> simp [processComment, h]

/-- C2 witness: the spec's example and an upper-case marker are detected, with
the advertised display text. -/
theorem sarcasm_marker_detection_witness :
    isSarcastic "This is great /s" = true ∧
    pyEndsWith "This is great /s" "/s" = true ∧
    isSarcastic "WOW /S" = true ∧
    (processComment wPipe "positive" "This is great /s" "").sentiment_category = "Sarcastic" ∧
    (processComment wPipe "positive" "This is great /s" "").text = "This is great" ∧
    (processComment wPipe "positive" "This is great /s" "").text =
      pyStrip (pyDropLast2 "This is great /s") :=
  ⟨by decide, by decide, by decide,
    ((sarcasm_marker_detection wPipe "positive" "This is great /s" "").2 (by decide)).1,
    by decide,
    ((sarcasm_marker_detection wPipe "positive" "This is great /s" "").2 (by decide)).2⟩

/-- C9: the inverted label is always Positive or Negative; any underlying label
other than those two, including unexpected model labels, goes to Negative, so a
sarcastic display label is always "Sarcastic (Reversed to Positive)" or
"Sarcastic (Reversed to Negative)". -/
theorem reversed_label_always_binary (pipe : String → String)
    (batchLabel comment_body parent_text : String) :
    (∀ label : String, invertSentiment label = "Positive" ∨
      invertSentiment label = "Negative") ∧
    (∀ label : String, label ≠ "Positive" → label ≠ "Negative" →
      invertSentiment label = "Negative") ∧
    (isSarcastic comment_body = true →
      (processComment pipe batchLabel comment_body parent_text).display_label =
        "Sarcastic (Reversed to Positive)" ∨
      (processComment pipe batchLabel comment_body parent_text).display_label =
        "Sarcastic (Reversed to Negative)") := by
  have hbin : ∀ label : String, invertSentiment label = "Positive" ∨
      invertSentiment label = "Negative" := by
    intro label
    unfold invertSentiment
    split
    · exact Or.inr rfl
    · split
      · exact Or.inl rfl
      · exact Or.inr rfl
  refine ⟨hbin, ?_, ?_⟩
  · intro label h1 h2
    unfold invertSentiment
    rw [if_neg h1, if_neg h2]
  · intro h
    have hd : (processComment pipe batchLabel comment_body parent_text).display_label =
        "Sarcastic (Reversed to " ++
          invertSentiment (pyCapitalize (pipe (pyStrip (pyDropLast2 comment_body)))) ++ ")" := by
      simp [processComment, h]
    rcases hbin (pyCapitalize (pipe (pyStrip (pyDropLast2 comment_body)))) with h1 | h1
    · left
      rw [hd, h1]
      decide
    · right
      rw [hd, h1]
      decide

/-- C9 witness: a pipeline returning the unexpected label "mixed" still yields
a binary reversed label (Negative), never any other reversed value. -/
theorem reversed_label_always_binary_witness :
    isSarcastic "weird /s" = true ∧
    ((processComment (fun _ => "mixed") "x" "weird /s" "").display_label =
        "Sarcastic (Reversed to Positive)" ∨
      (processComment (fun _ => "mixed") "x" "weird /s" "").display_label =
        "Sarcastic (Reversed to Negative)") ∧
    ("Mixed" : String) ≠ "Positive" ∧
    invertSentiment "Mixed" = "Negative" :=
  ⟨by decide,
    (reversed_label_always_binary (fun _ => "mixed") "x" "weird /s" "").2.2 (by decide),
    by decide,
    (reversed_label_always_binary (fun _ => "mixed") "x" "weird /s" "").2.1 "Mixed"
      (by decide) (by decide)⟩
